import Mathlib

/-!
Verification of the capture-and-result lifecycle controller of the OCR
receipt-reader frontend (src/src/app/page.tsx).

The component's handlers are embedded as pure Lean functions over an explicit
state record mirroring the React state hooks (selectedFile, isProcessing,
result, isCameraActive) together with the video element ref and its bound
media stream.  Asynchronous browser outcomes (getUserMedia success or failure,
canvas toBlob success or failure, the axios response) are passed as explicit
parameters.  JavaScript numbers are modelled as exact rationals; JavaScript
string coercions (template literals on null, the logical-or default, toFixed,
parseFloat, out-of-range array indexing) are modelled by small helper
functions translated from their ECMAScript semantics.
-/

namespace OcrClient

/-- JavaScript `x || d` on a nullable string: null and the empty string are
falsy and fall back to the default. -/
def jsOrStr : Option String → String → String
  | none, d => d
  | some s, d => if s = "" then d else s

/-- A nullable string interpolated into a template literal: null renders as
the literal text "null". -/
def jsTemplateStr : Option String → String
  | none => "null"
  | some s => s

/-- Two-digit zero-padded rendering of a value below 100. -/
def twoDigits (r : Nat) : String :=
  if r < 10 then "0" ++ toString r else toString r

/-- Renders an integer amount of hundredths as a signed decimal with exactly
two digits after the point. -/
def renderCents (n : Int) : String :=
  (if n < 0 then "-" else "") ++ toString (n.natAbs / 100) ++ "." ++ twoDigits (n.natAbs % 100)

/-- JavaScript `x.toFixed(2)` on an exact rational: round to the nearest
hundredth, ties toward positive infinity, then print two decimals. -/
def jsToFixed2 (q : ℚ) : String :=
  renderCents (Rat.floor (q * 100 + 1 / 2))

/-- JavaScript `parseFloat` of a fixed-decimal string re-rendered by a
template literal: trailing fractional zeros disappear, and a bare trailing
point disappears with them. -/
def stripTrailingZeros (s : String) : String :=
  if s.data.contains '.' then
    let r1 := s.data.reverse.dropWhile (fun c => c = '0')
    let r2 := match r1 with
      | '.' :: rest => rest
      | r => r
    String.mk r2.reverse
  else s

/-- The unit list of `formatBytes` (page.tsx line 67). -/
def sizes : List String := ["Bytes", "KB", "MB"]

/-- JavaScript array indexing: an out-of-range index yields `undefined`,
which a template literal renders as the text "undefined". -/
def jsIndex (l : List String) (i : Nat) : String :=
  l.getD i "undefined"

/-- `formatBytes` (page.tsx lines 64-70): the magnitude index is the floor of
the base-1024 logarithm (the real-number `Math.log` quotient is modelled
exactly by `Nat.log`), the scaled value is printed with `toFixed(2)` and
re-parsed by `parseFloat`, and the unit is looked up in `sizes`. -/
def formatBytes (bytes : Nat) : String :=
  if bytes = 0 then "0 KB"
  else
    stripTrailingZeros (jsToFixed2 ((bytes : ℚ) / 1024 ^ Nat.log 1024 bytes)) ++ " " ++
      jsIndex sizes (Nat.log 1024 bytes)

/-- Rounding to two decimal places, the `round2` the specification refers to.
This is the specification-side definition used to compare the rendered line
total against its specified value. -/
def round2 (q : ℚ) : ℚ :=
  (Rat.floor (q * 100 + 1 / 2) : ℚ) / 100

/-- A single track of a media stream; `stopped` records whether
`track.stop()` has been called on it. -/
structure MediaTrack where
  stopped : Bool
  deriving DecidableEq

/-- A camera media stream as handed out by `getUserMedia`. -/
structure MediaStream where
  tracks : List MediaTrack
  deriving DecidableEq

/-- `stream.getTracks().forEach(track => track.stop())` (page.tsx line 124). -/
def stopAll (s : MediaStream) : MediaStream :=
  ⟨s.tracks.map (fun _ => ⟨true⟩)⟩

/-- True when every track of the stream has been stopped. -/
def allStopped (s : MediaStream) : Bool :=
  s.tracks.all (fun t => t.stopped)

/-- The `PreviewFile` interface (page.tsx lines 6-11): the normalized pending
input, with the byte size already human-formatted and the payload stored as a
data URI. -/
structure PreviewFile where
  name : String
  type : String
  size : String
  preview : String
  deriving DecidableEq

/-- A browser `File` as seen by `handleFileSelect`: its metadata plus the
data URI the `FileReader` produces from its content. -/
structure JsFile where
  name : String
  type : String
  size : Nat
  dataUri : String
  deriving DecidableEq

/-- A `Blob` produced by `canvas.toBlob`, with the data URI its bytes read
back as. -/
structure JsBlob where
  size : Nat
  dataUri : String
  deriving DecidableEq

/-- The `documento` sub-object of the client (page.tsx lines 31-34); both
fields are nullable. -/
structure Documento where
  tipo : Option String
  numero : Option String
  deriving DecidableEq

/-- The `cliente` sub-object (page.tsx lines 29-35). -/
structure Cliente where
  nombre : Option String
  documento : Option Documento
  deriving DecidableEq

/-- The `emisor` sub-object (page.tsx lines 25-28). -/
structure Emisor where
  ruc : Option String
  razon_social : String
  deriving DecidableEq

/-- The `DocumentItem` interface (page.tsx lines 13-17); note that it carries
no precomputed line total. -/
structure DocumentItem where
  descripcion : String
  cantidad : ℚ
  precio_unitario : ℚ
  deriving DecidableEq

/-- The `totales` sub-object (page.tsx lines 37-41); every field nullable. -/
structure Totales where
  subtotal : Option ℚ
  igv : Option ℚ
  total : Option ℚ
  deriving DecidableEq

/-- The `extractedData` object (page.tsx lines 21-42). -/
structure ExtractedData where
  tipo_documento : String
  numero : Option String
  fecha_emision : Option String
  emisor : Emisor
  cliente : Cliente
  items : List DocumentItem
  totales : Totales
  deriving DecidableEq

/-- The success payload of the upload endpoint (page.tsx lines 20-45). -/
structure DocPayload where
  extractedData : ExtractedData
  confidence : ℚ
  rawText : String
  deriving DecidableEq

/-- The body of a 2xx response as the code reads it: possibly carrying the
application-level error envelope (`status`, `message`) and possibly carrying
the success payload under `data`. -/
structure ResponseBody where
  status : Option String
  message : Option String
  data : Option DocPayload
  deriving DecidableEq

/-- The outcome of the axios POST: `resolved` for a 2xx response with its
body, `rejected` for a transport-level failure carrying the message found at
`error.response.data.message` when the server supplied one. -/
inductive ServerResponse where
  | resolved (body : ResponseBody)
  | rejected (respMessage : Option String)
  deriving DecidableEq

/-- The component state: the four `useState` hooks of `Home` (page.tsx lines
57-62) plus the video element ref modelled by whether the element is mounted
(`videoMounted`, i.e. `videoRef.current` is non-null) and the stream bound to
its `srcObject`. -/
structure HomeState where
  selectedFile : Option PreviewFile
  isProcessing : Bool
  result : Option ResponseBody
  isCameraActive : Bool
  videoSrcObject : Option MediaStream
  videoMounted : Bool
  deriving DecidableEq

/-- `handleFileSelect` (page.tsx lines 72-85): normalizes a file into a
`PreviewFile` with a human-formatted size and the read-back data URI, and
stores it in the single `selectedFile` slot. -/
def handleFileSelect (st : HomeState) (f : JsFile) : HomeState :=
  let pf : PreviewFile :=
    { name := f.name, type := f.type, size := formatBytes f.size, preview := f.dataUri }
  { st with selectedFile := some pf }

/-- `activateCamera` (page.tsx lines 94-105).  The first argument of the
result is the new state, the second the alert raised (if any), the third the
stream acquired from `getUserMedia` as the handler leaves it (the handler
never stops any track).  On rejection of `getUserMedia` the state is left
untouched and an alert is raised.  On success the stream is bound to the
video element and the active flag set only when the element is mounted;
otherwise the acquired stream is simply dropped. -/
def activateCamera (st : HomeState) (stream : Option MediaStream) :
    HomeState × Option String × Option MediaStream :=
  match stream with
  | none => (st, some "No se pudo acceder a la cámara", none)
  | some s =>
      if st.videoMounted then
        ({ st with videoSrcObject := some s, isCameraActive := true }, none, some s)
      else (st, none, some s)

/-- `captureImage` (page.tsx lines 107-127).  `blob` is the outcome of
`canvas.toBlob` (`none` when encoding fails or the drawing context is
unavailable).  When the video element is mounted: on a successful encode the
blob is wrapped as the file "captura.jpg" and selected; in every case all
tracks of the bound stream are stopped and the active flag cleared. -/
def captureImage (st : HomeState) (blob : Option JsBlob) : HomeState :=
  if st.videoMounted then
    let st1 := match blob with
      | some b =>
          handleFileSelect st
            ({ name := "captura.jpg", type := "image/jpeg", size := b.size, dataUri := b.dataUri } : JsFile)
      | none => st
    { st1 with videoSrcObject := st1.videoSrcObject.map stopAll, isCameraActive := false }
  else st

/-- The generic fallback alert of `processDocument` (page.tsx line 154). -/
def genericError : String := "Error al procesar el documento"

/-- `processDocument` (page.tsx lines 129-158).  Returns the new state, the
alert raised (if any), and whether the POST was issued.  With no selected
file the handler returns immediately.  Otherwise the POST is issued; a 2xx
body whose `status` field is "error" makes the handler throw a local `Error`
carrying the body's message, but the catch block reads
`error.response?.data?.message`, which that local `Error` does not have, so
the alert falls back to the generic message.  A rejected request alerts the
message found on the error's response body when present (empty strings being
falsy fall back too); the `finally` clause clears `isProcessing` on every
path. -/
def processDocument (st : HomeState) (resp : ServerResponse) :
    HomeState × Option String × Bool :=
  match st.selectedFile with
  | none => (st, none, false)
  | some _ =>
      match resp with
      | ServerResponse.resolved body =>
          if body.status = some "error" then
            ({ st with isProcessing := false }, some genericError, true)
          else
            ({ st with isProcessing := false, result := some body }, none, true)
      | ServerResponse.rejected msg =>
          ({ st with isProcessing := false }, some (jsOrStr msg genericError), true)

/-- The operator pressing the "Procesar Documento" button (page.tsx lines
225-231): the button carries `disabled={isProcessing}`, so a click while a
submission is in flight never reaches the handler. -/
def clickProcess (st : HomeState) (resp : ServerResponse) :
    HomeState × Option String × Bool :=
  if st.isProcessing then (st, none, false) else processDocument st resp

/-- Rendering of the `numero` field (page.tsx line 264). -/
def renderNumeroField (numero : Option String) : String :=
  jsOrStr numero "No detectado"

/-- Rendering of the `fecha_emision` field (page.tsx line 268). -/
def renderFechaField (fecha : Option String) : String :=
  jsOrStr fecha "No detectada"

/-- Rendering of the issuer `ruc` field (page.tsx line 282). -/
def renderRucField (ruc : Option String) : String :=
  jsOrStr ruc "No detectado"

/-- Rendering of the client `nombre` field (page.tsx line 292). -/
def renderNombreField (nombre : Option String) : String :=
  jsOrStr nombre "No detectado"

/-- Rendering of the client `documento` field (page.tsx lines 296-300): a
non-null object is rendered through a template literal interpolating its two
nullable fields. -/
def renderDocumentoField (doc : Option Documento) : String :=
  match doc with
  | some d => jsTemplateStr d.tipo ++ ": " ++ jsTemplateStr d.numero
  | none => "No detectado"

/-- Rendering of `totales.subtotal` (page.tsx lines 339-341): the JavaScript
conditional tests truthiness, so both null and zero fall to the placeholder. -/
def renderSubtotalField (x : Option ℚ) : String :=
  match x with
  | some q => if q = 0 then "No detectado" else "S/ " ++ jsToFixed2 q
  | none => "No detectado"

/-- Rendering of `totales.igv` (page.tsx lines 347-349). -/
def renderIgvField (x : Option ℚ) : String :=
  match x with
  | some q => if q = 0 then "No aplica" else "S/ " ++ jsToFixed2 q
  | none => "No aplica"

/-- Rendering of `totales.total` (page.tsx lines 355-357). -/
def renderTotalField (x : Option ℚ) : String :=
  match x with
  | some q => if q = 0 then "No detectado" else "S/ " ++ jsToFixed2 q
  | none => "No detectado"

/-- One rendered row of the items table (page.tsx lines 319-325): the line
total column is computed by the client as `cantidad * precio_unitario`
formatted with `toFixed(2)`. -/
structure ItemRow where
  cantidad : ℚ
  descripcion : String
  punit : String
  total : String
  deriving DecidableEq

/-- Rendering of one item row (page.tsx lines 320-325). -/
def renderItemRow (i : DocumentItem) : ItemRow :=
  { cantidad := i.cantidad
    descripcion := i.descripcion
    punit := "S/ " ++ jsToFixed2 i.precio_unitario
    total := "S/ " ++ jsToFixed2 (i.cantidad * i.precio_unitario) }

/-- The items section (page.tsx line 305): rendered only when the list is
non-empty, otherwise omitted entirely. -/
def renderItemsSection (items : List DocumentItem) : Option (List ItemRow) :=
  if items.length > 0 then some (items.map renderItemRow) else none

/-- The confidence line (page.tsx lines 372-377): guarded by the truthiness
of `result.data?.confidence`, so it is rendered exactly when the confidence
is present and non-zero, formatted with `toFixed(2)`. -/
def renderConfidenceLine (c : Option ℚ) : Option String :=
  match c with
  | some q =>
      if q = 0 then none
      else some ("Confianza de la extracción: " ++ jsToFixed2 q ++ "%")
  | none => none

/-- The string `t` is a suffix of the string `s`. -/
def endsIn (s t : String) : Prop :=
  s.data.reverse.take t.data.length = t.data.reverse

instance (s t : String) : Decidable (endsIn s t) :=
  inferInstanceAs (Decidable (s.data.reverse.take t.data.length = t.data.reverse))

/-- A sample normalized input. -/
def sampleFile : PreviewFile :=
  { name := "doc.jpg", type := "image/jpeg", size := "488.28 KB",
    preview := "data:image/jpeg;base64,AAA" }

/-- A state with an input ready and no submission in flight. -/
def readyState : HomeState :=
  { selectedFile := some sampleFile, isProcessing := false, result := none,
    isCameraActive := false, videoSrcObject := none, videoMounted := false }

/-- A state with a submission already in flight. -/
def processingState : HomeState :=
  { selectedFile := some sampleFile, isProcessing := true, result := none,
    isCameraActive := false, videoSrcObject := none, videoMounted := false }

/-- A stream with two live tracks. -/
def liveStream : MediaStream := ⟨[⟨false⟩, ⟨false⟩]⟩

/-- The idle state in which `activateCamera` actually runs: the video element
is only rendered under `isCameraActive`, so it is unmounted. -/
def idleUnmounted : HomeState :=
  { selectedFile := none, isProcessing := false, result := none,
    isCameraActive := false, videoSrcObject := none, videoMounted := false }

/-- A camera-active state with a live bound stream and the video mounted. -/
def cameraActiveState : HomeState :=
  { selectedFile := none, isProcessing := false, result := none,
    isCameraActive := true, videoSrcObject := some liveStream, videoMounted := true }

/-- The application-level error envelope delivered under HTTP 200. -/
def badFileBody : ResponseBody :=
  { status := some "error", message := some "bad file", data := none }

/-- A sample extraction item. -/
def sampleItem : DocumentItem :=
  { descripcion := "Lapicero", cantidad := 3, precio_unitario := 2.5 }

/-! ### Helper lemmas -/

/-- The `Rat.floor` used by the executable definitions agrees with the
mathematical floor. -/
theorem ratFloor_eq (q : ℚ) : Rat.floor q = ⌊q⌋ :=
  (Rat.floor_def' q).trans Rat.floor_def.symm

/-- Printing with `toFixed(2)` is invariant under first rounding the value to
two decimals: the rounding `toFixed(2)` performs is exactly `round2`. -/
theorem jsToFixed2_round2 (q : ℚ) : jsToFixed2 (round2 q) = jsToFixed2 q := by
  unfold jsToFixed2 round2
  congr 1
  simp only [ratFloor_eq]
  rw [div_mul_cancel₀ _ (by norm_num : (100 : ℚ) ≠ 0)]
  rw [Int.floor_int_add]
  have h : ⌊(1 : ℚ) / 2⌋ = 0 := by
    rw [Int.floor_eq_zero_iff, Set.mem_Ico]
    norm_num
  rw [h, add_zero]

/-- Appending a string makes it a suffix of the result. -/
theorem endsIn_append (a t : String) : endsIn (a ++ t) t := by
  unfold endsIn
  rw [String.data_append, List.reverse_append, List.take_append_eq_append_take,
    List.length_reverse, Nat.sub_self, List.take_zero, List.append_nil,
    ← List.length_reverse t.data, List.take_length]

/-! ### Claim theorems -/

/-- Claim C4: triggering a submission while the controller is already in the
Submitting state is a no-op — the state is unchanged, no alert is raised and
no second network call is issued, so at most one submission is in flight per
session. -/
theorem clickProcess_noop_while_processing (st : HomeState) (resp : ServerResponse)
    (h : st.isProcessing = true) :
    clickProcess st resp = (st, none, false) := by
  simp [clickProcess, h]

/-- Witness for the no-op claim: a click on the disabled button while a
concrete submission is in flight changes nothing and sends nothing. -/
theorem clickProcess_noop_while_processing_witness :
    clickProcess processingState (ServerResponse.resolved badFileBody) =
      (processingState, none, false) :=
  clickProcess_noop_while_processing processingState (ServerResponse.resolved badFileBody) rfl

/-- Claim C7: for every item of the extraction result, the rendered line
total equals `round2(cantidad * precio_unitario)` formatted with the currency
prefix, computed by the client from the item's own fields (the item type
carries no precomputed total the service could supply). -/
theorem renderItemRow_total_round2 (i : DocumentItem) :
    (renderItemRow i).total =
      "S/ " ++ jsToFixed2 (round2 (i.cantidad * i.precio_unitario)) := by
  rw [show (renderItemRow i).total = "S/ " ++ jsToFixed2 (i.cantidad * i.precio_unitario)
      from rfl,
    jsToFixed2_round2]

/-- Witness: the line total of a concrete item is the client-computed rounded
product. -/
theorem renderItemRow_total_round2_witness :
    (renderItemRow sampleItem).total =
      "S/ " ++ jsToFixed2 (round2 (sampleItem.cantidad * sampleItem.precio_unitario)) :=
  renderItemRow_total_round2 sampleItem

/-- Claim C9: when camera activation fails (permission denied or no device),
the whole state is unchanged — so an idle state remains idle, no partial
session or stream binding is created, no CapturedInput appears — and an error
message is surfaced to the operator. -/
theorem activateCamera_failure_preserves_state (st : HomeState) :
    activateCamera st none = (st, some "No se pudo acceder a la cámara", none) ∧
    (activateCamera st none).1.selectedFile = st.selectedFile ∧
    (activateCamera st none).1.isCameraActive = st.isCameraActive ∧
    (activateCamera st none).1.videoSrcObject = st.videoSrcObject :=
  ⟨rfl, rfl, rfl, rfl⟩

/-- Witness: a failed activation from the idle state leaves it idle and
alerts. -/
theorem activateCamera_failure_preserves_state_witness :
    activateCamera idleUnmounted none =
      (idleUnmounted, some "No se pudo acceder a la cámara", none) :=
  (activateCamera_failure_preserves_state idleUnmounted).1

/-- Claim C10: the confidence line is rendered, formatted to two decimal
places, exactly when the confidence value is present and non-zero; a
confidence of 0 omits the line entirely. -/
theorem renderConfidenceLine_nonzero :
    (∀ c : Option ℚ, (renderConfidenceLine c).isSome = true ↔ ∃ q, c = some q ∧ q ≠ 0) ∧
    renderConfidenceLine (some 0) = none ∧
    renderConfidenceLine none = none ∧
    (∀ q : ℚ, q ≠ 0 →
      renderConfidenceLine (some q) =
        some ("Confianza de la extracción: " ++ jsToFixed2 q ++ "%")) := by
  refine ⟨?_, by simp [renderConfidenceLine], rfl, ?_⟩
  · intro c
    cases c with
    | none => simp [renderConfidenceLine]
    | some q =>
        by_cases hq : q = 0
        · subst hq
          simp [renderConfidenceLine]
        · simp [renderConfidenceLine, hq]
  · intro q hq
    simp [renderConfidenceLine, hq]

/-- Witness: a concrete non-zero confidence renders the formatted line. -/
theorem renderConfidenceLine_nonzero_witness :
    renderConfidenceLine (some (95.5 : ℚ)) =
      some ("Confianza de la extracción: " ++ jsToFixed2 (95.5 : ℚ) ++ "%") :=
  renderConfidenceLine_nonzero.2.2.2 (95.5 : ℚ) (by norm_num)

/-- Claim C1, behavior at the failing input: a 2xx response whose body is the
error envelope with message "bad file" never produces a Resulted state (the
stored result stays empty), but the alert raised is the generic fallback and
not the server-provided message, because the locally thrown error carrying
that message has no `response` field for the catch block to read. -/
theorem processDocument_error_envelope_generic_alert :
    processDocument readyState (ServerResponse.resolved badFileBody) =
      (readyState, some genericError, true) ∧
    (processDocument readyState (ServerResponse.resolved badFileBody)).1.result = none ∧
    badFileBody.status = some "error" ∧
    badFileBody.message = some "bad file" ∧
    genericError ≠ "bad file" := by
  refine ⟨?_, by decide, rfl, rfl, by decide⟩
  decide

/-- Claim C8, behavior at the failing input: on every failure mode the
Submitting flag ends cleared, the CapturedInput is preserved unchanged and an
alert is surfaced — a transport error's server message is shown and a missing
one falls back to the generic message — but the application-level error
envelope's message "bad file" is not the one surfaced: the generic fallback
is shown instead. -/
theorem processDocument_failure_state_hygiene :
    ((processDocument readyState (ServerResponse.resolved badFileBody)).1.isProcessing = false ∧
      (processDocument readyState (ServerResponse.resolved badFileBody)).1.selectedFile =
        some sampleFile ∧
      (processDocument readyState (ServerResponse.resolved badFileBody)).2.1 =
        some genericError) ∧
    ((processDocument readyState (ServerResponse.rejected (some "bad request"))).1.isProcessing =
        false ∧
      (processDocument readyState (ServerResponse.rejected (some "bad request"))).1.selectedFile =
        some sampleFile ∧
      (processDocument readyState (ServerResponse.rejected (some "bad request"))).2.1 =
        some "bad request") ∧
    ((processDocument readyState (ServerResponse.rejected none)).1.isProcessing = false ∧
      (processDocument readyState (ServerResponse.rejected none)).1.selectedFile =
        some sampleFile ∧
      (processDocument readyState (ServerResponse.rejected none)).2.1 = some genericError) ∧
    (processDocument readyState (ServerResponse.resolved badFileBody)).2.1 ≠
      some "bad file" := by
  refine ⟨⟨?_, ?_, ?_⟩, ⟨?_, ?_, ?_⟩, ⟨?_, ?_, ?_⟩, ?_⟩ <;> decide

/-- Claim C3, behavior at the failing input: a stream successfully acquired
while the video element is unmounted — which is the situation whenever
`activateCamera` runs, since the element renders only under an already-true
active flag — is neither bound to the state nor stopped: the handler returns
the state untouched, with the acquired stream still live and referenced by no
session. -/
theorem activateCamera_dangling_stream :
    activateCamera idleUnmounted (some liveStream) = (idleUnmounted, none, some liveStream) ∧
    allStopped liveStream = false ∧
    idleUnmounted.isCameraActive = false ∧
    idleUnmounted.videoSrcObject = none := by
  refine ⟨?_, ?_, ?_, ?_⟩ <;> decide

/-- Claim C2, counterexample to the statement as given: when frame encoding
fails (`canvas.toBlob` yields null), capture still stops every track of the
stream and clears the active flag while producing no CapturedInput — so a
stopped stream is observable with no resulting input. -/
theorem captureImage_stopped_without_input :
    (captureImage cameraActiveState none).selectedFile = none ∧
    (captureImage cameraActiveState none).isCameraActive = false ∧
    (captureImage cameraActiveState none).videoSrcObject = some (stopAll liveStream) ∧
    allStopped (stopAll liveStream) = true := by
  refine ⟨?_, ?_, ?_, ?_⟩ <;> decide

/-- Claim C2 as amended: capturing with the video element mounted stops all
stream tracks and clears the active flag in the same step; when frame
encoding succeeds the frame becomes the CapturedInput in that same step, but
when encoding fails the stream is still torn down and the previous input slot
is left as it was, with no new CapturedInput produced. -/
theorem captureImage_capture_teardown (st : HomeState) (h : st.videoMounted = true) :
    (∀ b : JsBlob,
      (captureImage st (some b)).selectedFile =
          some { name := "captura.jpg", type := "image/jpeg",
                 size := formatBytes b.size, preview := b.dataUri } ∧
        (captureImage st (some b)).isCameraActive = false ∧
        (captureImage st (some b)).videoSrcObject = st.videoSrcObject.map stopAll) ∧
    ((captureImage st none).selectedFile = st.selectedFile ∧
      (captureImage st none).isCameraActive = false ∧
      (captureImage st none).videoSrcObject = st.videoSrcObject.map stopAll) := by
  constructor
  · intro b
    refine ⟨?_, ?_, ?_⟩ <;> simp [captureImage, handleFileSelect, h]
  · refine ⟨?_, ?_, ?_⟩ <;> simp [captureImage, h]

/-- Witness: capturing a concrete successfully-encoded frame from a live
camera state yields the normalized "captura.jpg" input. -/
theorem captureImage_capture_teardown_witness :
    (captureImage cameraActiveState
        (some { size := 500000, dataUri := "data:image/jpeg;base64,CAP" })).selectedFile =
      some { name := "captura.jpg", type := "image/jpeg",
             size := formatBytes 500000, preview := "data:image/jpeg;base64,CAP" } :=
  ((captureImage_capture_teardown cameraActiveState rfl).1
    { size := 500000, dataUri := "data:image/jpeg;base64,CAP" }).1

/-- Claim C5, counterexample to the statement as given: at 2 GB the unit
index is 3, past the end of the three-element unit list, so the rendered
string is "2 undefined" — it does not end in Bytes, KB or MB, and in
particular sizes at or above 1 GB are not expressed in MB. -/
theorem formatBytes_gb_undefined :
    formatBytes 2147483648 = "2 undefined" ∧
    ¬ (endsIn (formatBytes 2147483648) "Bytes" ∨ endsIn (formatBytes 2147483648) "KB" ∨
        endsIn (formatBytes 2147483648) "MB") := by
  have hlog : Nat.log 1024 2147483648 = 3 :=
    Nat.log_eq_of_pow_le_of_lt_pow (by norm_num) (by norm_num)
  have hfloor : ⌊(((2147483648 : ℕ) : ℚ) / 1024 ^ 3) * 100 + 1 / 2⌋ = (200 : ℤ) := by
    rw [Int.floor_eq_iff]
    norm_num
  have hfix : jsToFixed2 (((2147483648 : ℕ) : ℚ) / 1024 ^ 3) = renderCents 200 := by
    unfold jsToFixed2
    rw [ratFloor_eq, hfloor]
  have hval : formatBytes 2147483648 = "2 undefined" := by
    unfold formatBytes
    rw [if_neg (by norm_num), hlog, hfix]
    decide
  refine ⟨hval, ?_⟩
  rw [hval]
  decide

/-- Claim C5 as amended: `formatBytes 0` is the literal "0 KB", and for every
byte count from 1 up to (but excluding) 1 GB the result ends in one of
"Bytes", "KB" or "MB"; at or above 1 GB the unit index leaves the unit list
and the string ends in "undefined" instead. -/
theorem formatBytes_units :
    formatBytes 0 = "0 KB" ∧
    (∀ b : Nat, 1 ≤ b → b < 1024 ^ 3 →
      endsIn (formatBytes b) "Bytes" ∨ endsIn (formatBytes b) "KB" ∨
        endsIn (formatBytes b) "MB") := by
  refine ⟨rfl, ?_⟩
  intro b h1 h2
  have hb : b ≠ 0 := by omega
  have hlt : Nat.log 1024 b < 3 := by
    rw [← Nat.lt_pow_iff_log_lt (by norm_num) hb]
    exact h2
  have hform : formatBytes b =
      stripTrailingZeros (jsToFixed2 ((b : ℚ) / 1024 ^ Nat.log 1024 b)) ++ " " ++
        jsIndex sizes (Nat.log 1024 b) := by
    unfold formatBytes
    rw [if_neg hb]
  have h3 : Nat.log 1024 b = 0 ∨ Nat.log 1024 b = 1 ∨ Nat.log 1024 b = 2 := by omega
  rcases h3 with h | h | h <;> rw [hform, h]
  · exact Or.inl (by rw [show jsIndex sizes 0 = "Bytes" from rfl]; exact endsIn_append _ _)
  · exact Or.inr (Or.inl
      (by rw [show jsIndex sizes 1 = "KB" from rfl]; exact endsIn_append _ _))
  · exact Or.inr (Or.inr
      (by rw [show jsIndex sizes 2 = "MB" from rfl]; exact endsIn_append _ _))

/-- Witness: the 500000-byte scenario of the specification renders with a KB
unit (indeed as "488.28 KB"). -/
theorem formatBytes_units_witness :
    (endsIn (formatBytes 500000) "Bytes" ∨ endsIn (formatBytes 500000) "KB" ∨
        endsIn (formatBytes 500000) "MB") ∧
    formatBytes 500000 = "488.28 KB" := by
  constructor
  · exact formatBytes_units.2 500000 (by norm_num) (by norm_num)
  · have hlog : Nat.log 1024 500000 = 1 :=
      Nat.log_eq_of_pow_le_of_lt_pow (by norm_num) (by norm_num)
    have hfloor : ⌊(((500000 : ℕ) : ℚ) / 1024 ^ 1) * 100 + 1 / 2⌋ = (48828 : ℤ) := by
      rw [Int.floor_eq_iff]
      norm_num
    have hfix : jsToFixed2 (((500000 : ℕ) : ℚ) / 1024 ^ 1) = renderCents 48828 := by
      unfold jsToFixed2
      rw [ratFloor_eq, hfloor]
    unfold formatBytes
    rw [if_neg (by norm_num), hlog, hfix]
    decide

/-- Claim C6, counterexample to the statement as given: a monetary total that
is present but equal to zero is falsy in the conditional, so it renders the
"No detectado" placeholder instead of "S/ 0.00"; and a non-null client
document object whose nullable sub-fields are null renders them through the
template literal as the text "null". -/
theorem renderFields_zero_and_null :
    (renderSubtotalField (some 0) = "No detectado" ∧
      renderSubtotalField (some 0) ≠ "S/ " ++ jsToFixed2 0) ∧
    renderDocumentoField (some { tipo := none, numero := some "12345678" }) =
      "null: 12345678" := by
  refine ⟨⟨?_, ?_⟩, ?_⟩ <;> decide

/-- Claim C6 as amended: every null field renders its field-specific
placeholder ("No detectado"/"No detectada" for missing values, "No aplica"
for the tax field), every non-null and non-zero monetary total renders as
"S/ " followed by two decimals, and the items section is omitted entirely
when the item list is empty; however a monetary total equal to 0 renders its
placeholder despite being non-null, and a non-null client document with null
sub-fields renders the literal text "null" for them. -/
theorem renderFields_placeholders :
    (∀ q : ℚ, q ≠ 0 →
      renderSubtotalField (some q) = "S/ " ++ jsToFixed2 q ∧
        renderIgvField (some q) = "S/ " ++ jsToFixed2 q ∧
        renderTotalField (some q) = "S/ " ++ jsToFixed2 q) ∧
    renderNumeroField none = "No detectado" ∧
    renderFechaField none = "No detectada" ∧
    renderRucField none = "No detectado" ∧
    renderNombreField none = "No detectado" ∧
    renderDocumentoField none = "No detectado" ∧
    renderSubtotalField none = "No detectado" ∧
    renderIgvField none = "No aplica" ∧
    renderTotalField none = "No detectado" ∧
    renderItemsSection [] = none ∧
    renderSubtotalField (some 0) = "No detectado" ∧
    renderDocumentoField (some { tipo := none, numero := none }) = "null: null" := by
  refine ⟨?_, rfl, rfl, rfl, rfl, rfl, rfl, rfl, rfl, rfl, by decide, by decide⟩
  intro q hq
  refine ⟨?_, ?_, ?_⟩ <;>
    simp [renderSubtotalField, renderIgvField, renderTotalField, hq]

/-- Witness: a concrete non-zero subtotal renders as the currency-prefixed
two-decimal amount. -/
theorem renderFields_placeholders_witness :
    renderSubtotalField (some (150.5 : ℚ)) = "S/ " ++ jsToFixed2 (150.5 : ℚ) :=
  (renderFields_placeholders.1 (150.5 : ℚ) (by norm_num)).1

end OcrClient
